import Mathlib

/-!
# Cross-context authentication handoff

A shallow embedding of the OAuth backend (`src/backend/server.js`) and of the
plugin-side poller (`src/code.js`).

* The module-level `sessions` map of the backend is an insertion-ordered
  association list; every route handler is a function from the map and the
  request to a response and the map afterwards.
* The plugin's module-level variables, the host's table of live interval timers,
  `figma.clientStorage`, the messages posted to the UI and the requests sent are
  the fields of one state record; every handler is a function on that record.
* Clock readings (`Date.now()`) are integers of milliseconds.  The two strings
  `Math.random().toString(36)` and the outcomes of awaited host calls are inputs.
-/

namespace FigmaOAuth

/-! ## Backend data model -/

/-- Profile stored with a session (`userInfo`).  A field that is `undefined` in
JavaScript is `none`. -/
structure UserInfo where
  id : Option String
  displayName : Option String
  name : Option String
  email : Option String
  picture : Option String
deriving DecidableEq, Repr

/-- The object the passport verify callback builds and that the callback route
reads as `req.user`. -/
structure User where
  id : Option String
  displayName : Option String
  name : Option String
  email : Option String
  picture : Option String
  accessToken : Option String
deriving DecidableEq, Repr

/-- Value of the `sessions` map: the object literal written by the callback route. -/
structure SessionData where
  authenticated : Bool
  token : String
  userInfo : UserInfo
  timestamp : Int
deriving DecidableEq, Repr

/-- The module-level `sessions = new Map()`: entries in insertion order. -/
abbrev Sessions := List (String × SessionData)

/-- Lookup `sessions.get(key)`. -/
def Sessions.get (m : Sessions) (key : String) : Option SessionData :=
  (m.find? (fun e => e.1 == key)).map Prod.snd

/-- Write `sessions.set(key, value)`: an existing key keeps its position and gets the
new value, a new key is appended. -/
def Sessions.set (m : Sessions) (key : String) (value : SessionData) : Sessions :=
  if m.any (fun e => e.1 == key) then
    m.map (fun e => if e.1 == key then (key, value) else e)
  else
    m ++ [(key, value)]

/-- Removal `sessions.delete(key)`. -/
def Sessions.delete (m : Sessions) (key : String) : Sessions :=
  m.filter (fun e => e.1 != key)

/-- Keys of the map, in insertion order. -/
def Sessions.keys (m : Sessions) : List String :=
  m.map Prod.fst

/-- JavaScript truthiness of a value that is a string or `undefined`. -/
def truthy : Option String → Bool
  | some s => s != ""
  | none => false

/-- The expression `a || b` on values that are strings or `undefined`. -/
def jsOr (a b : Option String) : Option String :=
  if truthy a then a else b

/-- The literal `24 * 60 * 60 * 1000`. -/
def SESSION_TTL : Int := 24 * 60 * 60 * 1000

/-! ## Token generation -/

/-- One base-36 digit as `Number.prototype.toString(36)` prints it. -/
def digit36 (d : Nat) : Char :=
  if d < 10 then Char.ofNat (48 + d) else Char.ofNat (87 + d)

/-- Base-36 digits of `n`, most significant first, prepended to `acc`. -/
def toDigits36 : Nat → Nat → List Char → List Char
  | 0, _, acc => acc
  | fuel + 1, n, acc =>
    if n / 36 = 0 then digit36 (n % 36) :: acc
    else toDigits36 fuel (n / 36) (digit36 (n % 36) :: acc)

/-- Text of `n.toString(36)` for an integer `n`. -/
def toString36 (n : Int) : String :=
  if n < 0 then String.mk ('-' :: toDigits36 (n.natAbs + 1) n.natAbs [])
  else String.mk (toDigits36 (n.natAbs + 1) n.natAbs [])

/-- Function `generateToken()`: `r1` and `r2` are the two strings
`Math.random().toString(36)`, `now` is the clock reading taken in between. -/
def generateToken (r1 r2 : String) (now : Int) : String :=
  r1.drop 2 ++ toString36 now ++ r2.drop 2

/-! ## Backend route handlers -/

/-- JSON body (and status code) sent by `GET /session-status`. -/
structure StatusResponse where
  status : Nat
  authenticated : Option Bool
  token : Option String
  userInfo : Option UserInfo
  error : Option String
deriving DecidableEq, Repr

/-- Response `res.status(400).json({ error: 'Session ID required' })`. -/
def sessionIdRequired : StatusResponse :=
  { status := 400, authenticated := none, token := none, userInfo := none,
    error := some "Session ID required" }

/-- Response `res.json({ authenticated: false })`. -/
def notAuthenticated : StatusResponse :=
  { status := 200, authenticated := some false, token := none, userInfo := none,
    error := none }

/-- Response `res.json({ authenticated: false, error: 'Session expired' })`. -/
def sessionExpired : StatusResponse :=
  { status := 200, authenticated := some false, token := none, userInfo := none,
    error := some "Session expired" }

/-- Route `GET /session-status` with `req.query.session = session` at clock reading
`now`: the response and the map afterwards. -/
def sessionStatus (sessions : Sessions) (session : Option String) (now : Int) :
    StatusResponse × Sessions :=
  if truthy session then
    match session with
    | none => (sessionIdRequired, sessions)
    | some sessionId =>
      match sessions.get sessionId with
      | none => (notAuthenticated, sessions)
      | some sessionData =>
        if now - sessionData.timestamp > SESSION_TTL then
          (sessionExpired, sessions.delete sessionId)
        else
          ({ status := 200, authenticated := some sessionData.authenticated,
             token := some sessionData.token, userInfo := some sessionData.userInfo,
             error := none }, sessions)
  else (sessionIdRequired, sessions)

/-- What the callback route sends. -/
inductive CallbackResponse where
  | redirectFailure
  | successPage
deriving DecidableEq, Repr

/-- Outcome of `GET /auth/google/callback`: the response, the token issued (if
any) and the map afterwards. -/
structure CallbackResult where
  response : CallbackResponse
  issued : Option String
  sessions : Sessions
deriving DecidableEq, Repr

/-- The session id the callback route recovers:
`req.session.pluginSessionId || req.query.state`. -/
def callbackSessionId (pluginSessionId state : Option String) : Option String :=
  jsOr pluginSessionId state

/-- Route `GET /auth/google/callback`.  `auth` is the user `passport.authenticate`
produced (`none`: the exchange failed and passport redirected to the failure
page before the handler ran); `pluginSessionId` is `req.session.pluginSessionId`,
`state` is `req.query.state`; `tokenTime` is the clock reading inside
`generateToken()`, `now` the one stored as `timestamp`. -/
def authCallback (sessions : Sessions) (auth : Option User)
    (pluginSessionId state : Option String) (r1 r2 : String) (tokenTime now : Int) :
    CallbackResult :=
  match auth with
  | none => { response := .redirectFailure, issued := none, sessions := sessions }
  | some user =>
    let sessionId := callbackSessionId pluginSessionId state
    if truthy sessionId then
      match sessionId with
      | none => { response := .redirectFailure, issued := none, sessions := sessions }
      | some id =>
        let token := generateToken r1 r2 tokenTime
        { response := .successPage, issued := some token,
          sessions := sessions.set id
            { authenticated := true, token := token,
              userInfo := { id := user.id, displayName := user.displayName,
                            name := user.name, email := user.email,
                            picture := user.picture },
              timestamp := now } }
    else { response := .redirectFailure, issued := none, sessions := sessions }

/-- Outcome of `GET /auth/google`: `none` is the 400 answer, `some id` is the
value written to `req.session.pluginSessionId` (and sent as OAuth `state`). -/
def authGoogle (session : Option String) : Option String :=
  if truthy session then session else none

/-- Pieces of `s.split(' ')` on the characters of `s`; `cur` is the piece being read,
reversed. -/
def splitSpaceAux : List Char → List Char → List String
  | [], cur => [String.mk cur.reverse]
  | c :: cs, cur =>
    if c = ' ' then String.mk cur.reverse :: splitSpaceAux cs []
    else splitSpaceAux cs (c :: cur)

/-- Value of `authHeader.split(' ')[1]` (`none` when there is no second piece). -/
def bearerToken (authHeader : String) : Option String :=
  (splitSpaceAux authHeader.data [])[1]?

/-- The `for … of sessions.entries()` loop of `POST /logout` up to its `break`:
the id of the first entry whose `data.token === token`. -/
def findByToken (sessions : Sessions) (token : Option String) : Option String :=
  (sessions.find? (fun e => some e.2.token == token)).map Prod.fst

/-- The delete-by-token step of `POST /logout`: delete the entry found, then
`break`. -/
def deleteByToken (sessions : Sessions) (token : Option String) : Sessions :=
  match findByToken sessions token with
  | some sessionId => sessions.delete sessionId
  | none => sessions

/-- What `POST /logout` sends. -/
inductive LogoutResponse where
  | logoutFailed
  | success
deriving DecidableEq, Repr

/-- Route `POST /logout` with `req.headers.authorization = authHeader`; `err` says
whether `req.logout` reports an error to its callback. -/
def logout (sessions : Sessions) (authHeader : Option String) (err : Bool) :
    LogoutResponse × Sessions :=
  let sessions' :=
    if truthy authHeader then
      match authHeader with
      | some h => deleteByToken sessions (bearerToken h)
      | none => sessions
    else sessions
  (if err then .logoutFailed else .success, sessions')

/-- The hourly `setInterval` callback at clock reading `now`. -/
def sweep (sessions : Sessions) (now : Int) : Sessions :=
  sessions.filter (fun e => !decide (now - e.2.timestamp > SESSION_TTL))

/-- The operations that touch the `sessions` map. -/
inductive BackendEvent where
  | callback (auth : Option User) (pluginSessionId state : Option String)
      (r1 r2 : String) (tokenTime now : Int)
  | status (session : Option String) (now : Int)
  | logout (authHeader : Option String) (err : Bool)
  | sweep (now : Int)
deriving DecidableEq, Repr

/-- The map after one backend operation. -/
def backendStep (sessions : Sessions) : BackendEvent → Sessions
  | .callback auth ctx state r1 r2 tokenTime now =>
    (authCallback sessions auth ctx state r1 r2 tokenTime now).sessions
  | .status session now => (sessionStatus sessions session now).2
  | .logout authHeader err => (logout sessions authHeader err).2
  | .sweep now => sweep sessions now

/-- The map after a sequence of backend operations. -/
def backendRun (sessions : Sessions) (events : List BackendEvent) : Sessions :=
  events.foldl backendStep sessions

/-- A map the server can hold: reached from the empty map it starts with. -/
def Reachable (sessions : Sessions) : Prop :=
  ∃ events : List BackendEvent, backendRun [] events = sessions

/-- The event is a callback that stores a result under `S`. -/
def completesFor (S : String) : BackendEvent → Bool
  | .callback auth ctx state _ _ _ _ =>
    auth.isSome && (callbackSessionId ctx state == some S) && truthy (some S)
  | _ => false

/-- Representation invariant of the map: keys are distinct, and no key is the
empty string (the callback route refuses a falsy id). -/
def WellFormed (m : Sessions) : Prop :=
  m.keys.Nodup ∧ "" ∉ m.keys

/-! ## Concrete scenarios used to instantiate the theorems -/

/-- A signed-in user. -/
def exampleUser : User :=
  { id := some "117", displayName := some "Ada", name := some "Ada",
    email := some "ada@example.org", picture := none, accessToken := some "ya29" }

/-- The session written by a callback for `exampleUser` at clock reading 1000. -/
def exampleSession : SessionData :=
  { authenticated := true, token := generateToken "0.4fzyo82mvyr" "0.k3x9q1" 1000,
    userInfo := { id := some "117", displayName := some "Ada", name := some "Ada",
                  email := some "ada@example.org", picture := none },
    timestamp := 1000 }

/-- The callback completes for `abc123`, recovered from the `state` parameter. -/
def exampleCallback : BackendEvent :=
  .callback (some exampleUser) none (some "abc123") "0.4fzyo82mvyr" "0.k3x9q1" 1000 1000

/-- The map after `exampleCallback` on a server that has just started. -/
def exampleSessions : Sessions :=
  backendRun [] [exampleCallback]

/-- Two callbacks for different ids in the same millisecond whose
`Math.random()` calls return the same strings: both sessions get one token. -/
def duplicateTokenSessions : Sessions :=
  backendRun []
    [.callback (some exampleUser) none (some "abc123") "0.4fzyo82mvyr" "0.k3x9q1" 1000 1000,
     .callback (some exampleUser) none (some "xyz789") "0.4fzyo82mvyr" "0.k3x9q1" 1000 1000]

/-- A second callback for the id `abc123`, one second after `exampleCallback`. -/
def repeatedCallback : BackendEvent :=
  .callback (some exampleUser) none (some "abc123") "0.9d2k" "0.77aq" 2000 2000

/-! ## Plugin (src/code.js) -/

/-- The literal `300000`. -/
def MAX_POLLING_TIME : Int := 300000

/-- A JavaScript value as far as the poller looks at it: the poller only tests
truthiness and passes values on.  An object or array is carried as its JSON text. -/
inductive JsVal where
  | undefined
  | null
  | bool (b : Bool)
  | num (n : Int)
  | str (s : String)
  | object (json : String)
deriving DecidableEq, Repr

/-- JavaScript truthiness. -/
def truthyVal : JsVal → Bool
  | .undefined => false
  | .null => false
  | .bool b => b
  | .num n => n != 0
  | .str s => s != ""
  | .object _ => true

/-- The fields of the parsed status body that the poller reads. -/
structure StatusData where
  authenticated : JsVal
  token : JsVal
  userInfo : JsVal
  error : JsVal
deriving DecidableEq, Repr

/-- Outcome of `await fetch(…/session-status…)` followed by `response.json()`:
`rejected` when `fetch` throws; otherwise `response.ok` and the parsed body,
`none` when reading the body throws. -/
inductive FetchResult where
  | rejected
  | response (ok : Bool) (body : Option StatusData)
deriving DecidableEq, Repr

/-- What the host does during one tick: the status request and whether the two
`figma.clientStorage.setAsync` calls resolve. -/
structure TickEnv where
  fetch : FetchResult
  setTokenOk : Bool
  setUserInfoOk : Bool
deriving DecidableEq, Repr

/-- What the host does during `handleLogout`: whether `getAsync('authToken')`,
the `fetch` of `/logout` and the two `deleteAsync` calls resolve. -/
structure LogoutEnv where
  getTokenOk : Bool
  fetchOk : Bool
  deleteTokenOk : Bool
  deleteUserInfoOk : Bool
deriving DecidableEq, Repr

/-- A value in `figma.clientStorage`: stored as is, or as `JSON.stringify(v)`. -/
inductive Stored where
  | raw (v : JsVal)
  | stringified (v : JsVal)
deriving DecidableEq, Repr

/-- Truthiness of the result of `getAsync` (`none`: the key is missing). -/
def truthyStored : Option Stored → Bool
  | none => false
  | some (.raw v) => truthyVal v
  | some (.stringified v) => v != .undefined

/-- Messages posted with `figma.ui.postMessage`. -/
inductive UiMessage where
  | authStateChanged (authenticated : Bool) (userInfo : JsVal)
  | loginSuccess (userInfo : JsVal)
  | loginError (error : JsVal)
  | logoutError (error : String)
deriving DecidableEq, Repr

/-- Requests sent with `fetch`. -/
inductive Request where
  | sessionStatus (sessionId : String)
  | logout (token : Option Stored)
deriving DecidableEq, Repr

/-- The plugin: its two module-level variables and the host state it acts on.
`timers` are the live interval timers (handle and the `sessionId` their callback
captured); `timerCount` is the number of handles the host has handed out. -/
structure PluginState where
  pollingInterval : Option Nat
  pollingStartTime : Option Int
  timers : List (Nat × String)
  timerCount : Nat
  storage : List (String × Stored)
  outbox : List UiMessage
  requests : List Request
deriving DecidableEq, Repr

/-- Host call `clearInterval(h)`; `h = none` is `clearInterval(null)`. -/
def clearInterval (s : PluginState) (h : Option Nat) : PluginState :=
  { s with timers := s.timers.filter (fun t => some t.1 != h) }

/-- Host call `figma.ui.postMessage(m)`. -/
def postMessage (s : PluginState) (m : UiMessage) : PluginState :=
  { s with outbox := s.outbox ++ [m] }

/-- Host call `figma.clientStorage.getAsync(key)`. -/
def getAsync (s : PluginState) (key : String) : Option Stored :=
  (s.storage.find? (fun e => e.1 == key)).map Prod.snd

/-- Host call `figma.clientStorage.setAsync(key, v)`. -/
def setAsync (s : PluginState) (key : String) (v : Stored) : PluginState :=
  { s with storage := s.storage.filter (fun e => e.1 != key) ++ [(key, v)] }

/-- Host call `figma.clientStorage.deleteAsync(key)`. -/
def deleteAsync (s : PluginState) (key : String) : PluginState :=
  { s with storage := s.storage.filter (fun e => e.1 != key) }

/-- The test `if (pollingInterval)`: a handle is a number, truthy unless 0. -/
def truthyHandle : Option Nat → Bool
  | some h => h != 0
  | none => false

/-- Function `startPolling(sessionId)` at clock reading `now`.  The host hands out the
positive handles 1, 2, 3, … -/
def startPolling (s : PluginState) (sessionId : String) (now : Int) : PluginState :=
  let s1 := if truthyHandle s.pollingInterval then clearInterval s s.pollingInterval else s
  let handle := s1.timerCount + 1
  { s1 with
    pollingStartTime := some now
    pollingInterval := some handle
    timers := s1.timers ++ [(handle, sessionId)]
    timerCount := s1.timerCount + 1 }

/-- The `catch` block of the interval callback. -/
def tickCatch (s : PluginState) : PluginState :=
  postMessage (clearInterval s s.pollingInterval)
    (.loginError (.str "Network error. Please check your connection and try again."))

/-- The interval callback scheduled by `startPolling(sessionId)`, run to
completion at clock reading `now`. -/
def tickBody (s : PluginState) (sessionId : String) (now : Int) (env : TickEnv) :
    PluginState :=
  if now - s.pollingStartTime.getD 0 > MAX_POLLING_TIME then
    postMessage (clearInterval s s.pollingInterval)
      (.loginError (.str "Authentication timeout. Please try again."))
  else
    let s1 := { s with requests := s.requests ++ [.sessionStatus sessionId] }
    match env.fetch with
    | .rejected => tickCatch s1
    | .response ok body =>
      if !ok then tickCatch s1
      else
        match body with
        | none => tickCatch s1
        | some data =>
          if truthyVal data.authenticated then
            let s2 := clearInterval s1 s1.pollingInterval
            if !env.setTokenOk then tickCatch s2
            else
              let s3 := setAsync s2 "authToken" (.raw data.token)
              if !env.setUserInfoOk then tickCatch s3
              else
                let s4 := setAsync s3 "userInfo" (.stringified data.userInfo)
                postMessage s4 (.loginSuccess data.userInfo)
          else if truthyVal data.error then
            postMessage (clearInterval s1 s1.pollingInterval) (.loginError data.error)
          else s1

/-- The host fires the interval timer `handle`: a timer that is not live does
not fire. -/
def tick (s : PluginState) (handle : Nat) (now : Int) (env : TickEnv) : PluginState :=
  match s.timers.find? (fun t => t.1 == handle) with
  | none => s
  | some t => tickBody s t.2 now env

/-- The `catch` block of `handleLogout`. -/
def logoutCatch (s : PluginState) : PluginState :=
  postMessage s (.logoutError "Failed to logout. Please try again.")

/-- Function `handleLogout()`, run to completion. -/
def handleLogout (s : PluginState) (env : LogoutEnv) : PluginState :=
  if !env.getTokenOk then logoutCatch s
  else
    let token := getAsync s "authToken"
    let s1 := if truthyStored token then
        { s with requests := s.requests ++ [.logout token] } else s
    if truthyStored token && !env.fetchOk then logoutCatch s1
    else if !env.deleteTokenOk then logoutCatch s1
    else
      let s2 := deleteAsync s1 "authToken"
      if !env.deleteUserInfoOk then logoutCatch s2
      else
        let s3 := deleteAsync s2 "userInfo"
        let s4 := if truthyHandle s3.pollingInterval then
            clearInterval s3 s3.pollingInterval else s3
        postMessage s4 (.authStateChanged false .undefined)

/-- The events the claims speak about. -/
inductive PluginEvent where
  | startPolling (sessionId : String) (now : Int)
  | tick (handle : Nat) (now : Int) (env : TickEnv)
  | logout (env : LogoutEnv)
deriving DecidableEq, Repr

/-- The plugin after one event. -/
def pluginStep (s : PluginState) : PluginEvent → PluginState
  | .startPolling sessionId now => startPolling s sessionId now
  | .tick handle now env => tick s handle now env
  | .logout env => handleLogout s env

/-- The plugin after a sequence of events. -/
def pluginRun (s : PluginState) (events : List PluginEvent) : PluginState :=
  events.foldl pluginStep s

/-- The plugin right after `code.js` is loaded: `pollingInterval` and
`pollingStartTime` are `null` and no interval timer exists.  Storage survives
reloads, so its content is arbitrary. -/
def Fresh (s : PluginState) : Prop :=
  s.pollingInterval = none ∧ s.pollingStartTime = none ∧ s.timers = []

/-- A state the plugin can be in. -/
def PluginReachable (s : PluginState) : Prop :=
  ∃ (s0 : PluginState) (events : List PluginEvent), Fresh s0 ∧ pluginRun s0 events = s

/-- The plugin as loaded with nothing stored. -/
def pluginInit : PluginState :=
  { pollingInterval := none, pollingStartTime := none, timers := [], timerCount := 0,
    storage := [], outbox := [], requests := [] }

/-- The handle of timer entry `t` is live in state `s`. -/
def timerAlive (s : PluginState) (handle : Nat) : Bool :=
  s.timers.any (fun t => t.1 == handle)


/-- Invariant of the poller: every live interval timer is the one whose handle
is in `pollingInterval`, and that handle is truthy. -/
def PollerInv (s : PluginState) : Prop :=
  s.timers = [] ∨
    ∃ (h : Nat) (sessionId : String),
      s.timers = [(h, sessionId)] ∧ s.pollingInterval = some h ∧ h ≠ 0

/-- The poller while `abc123` is being polled, started at clock reading 0. -/
def pollingState : PluginState :=
  pluginRun pluginInit [.startPolling "abc123" 0]

/-- A status body `{authenticated: true, token: 'tok1', userInfo: {…}}`. -/
def successBody : StatusData :=
  { authenticated := .bool true, token := .str "tok1",
    userInfo := .object "\x7b\"id\":\"117\"\x7d", error := .undefined }

/-- A status body `{authenticated: false, error: ''}`. -/
def emptyErrorBody : StatusData :=
  { authenticated := .bool false, token := .undefined, userInfo := .undefined,
    error := .str "" }

/-- A host on which every awaited call of a tick resolves, the status request
returning `body` with a success status. -/
def okTick (body : StatusData) : TickEnv :=
  { fetch := .response true (some body), setTokenOk := true, setUserInfoOk := true }

/-- The poller after a completed login (token stored) followed by a new
`startPolling`: a timer is live and `authToken` is stored. -/
def loggedInPolling : PluginState :=
  pluginRun pluginInit
    [.startPolling "abc123" 0, .tick 1 3000 (okTick successBody),
     .startPolling "def456" 10000]

/-- A host on which the `fetch` of `/logout` throws. -/
def logoutFetchFails : LogoutEnv :=
  { getTokenOk := true, fetchOk := false, deleteTokenOk := true, deleteUserInfoOk := true }

/-- A host on which `deleteAsync('authToken')` throws. -/
def logoutDeleteFails : LogoutEnv :=
  { getTokenOk := true, fetchOk := true, deleteTokenOk := false, deleteUserInfoOk := true }

/-- The tick leaves the poller polling: the status request returned a success
response with a readable body whose `authenticated` and `error` are both falsy
(the two tests `if (data.authenticated)` and `else if (data.error)` fail). -/
def keepsPolling : FetchResult → Bool
  | .response true (some data) => !truthyVal data.authenticated && !truthyVal data.error
  | _ => false

/-- The condition in the words of the specification: a success response whose
`authenticated` field is `false` and which carries no `error` field. -/
def claimedKeepsPolling : FetchResult → Bool
  | .response true (some data) => data.authenticated == .bool false && data.error == .undefined
  | _ => false

/-! ## The `sessions` map -/

theorem get_nil (k : String) : Sessions.get [] k = none := rfl

theorem get_cons (e : String × SessionData) (m : Sessions) (k : String) :
    Sessions.get (e :: m) k = if e.1 = k then some e.2 else Sessions.get m k := by
  unfold Sessions.get
  by_cases h : e.1 = k <;> simp [List.find?_cons, h]

theorem get_eq_none_iff (m : Sessions) (k : String) :
    m.get k = none ↔ k ∉ m.keys := by
  induction m with
  | nil => simp [get_nil, Sessions.keys]
  | cons e m ih =>
    rw [get_cons]
    simp only [Sessions.keys] at ih
    by_cases h : e.1 = k
    · subst h
      simp [Sessions.keys]
    · have h' : ¬ k = e.1 := fun a => h a.symm
      simp [h, h', Sessions.keys, ih]

theorem get_filter_of_none (m : Sessions) (p : String × SessionData → Bool) (k : String)
    (h : m.get k = none) : Sessions.get (m.filter p) k = none := by
  rw [get_eq_none_iff] at h ⊢
  intro hk
  apply h
  simp only [Sessions.keys, List.mem_map] at hk ⊢
  obtain ⟨e, he, rfl⟩ := hk
  exact ⟨e, (List.mem_filter.mp he).1, rfl⟩

theorem get_delete_self (m : Sessions) (k : String) : (m.delete k).get k = none := by
  rw [get_eq_none_iff]
  simp only [Sessions.keys, Sessions.delete, List.mem_map, List.mem_filter]
  rintro ⟨e, ⟨_, he⟩, rfl⟩
  simp at he

theorem get_delete_ne (m : Sessions) (k k' : String) (h : k' ≠ k) :
    (m.delete k).get k' = m.get k' := by
  have hk' : ¬ k = k' := fun a => h a.symm
  induction m with
  | nil => rfl
  | cons e m ih =>
    unfold Sessions.delete at ih ⊢
    by_cases hk : e.1 = k
    · simp [List.filter_cons, hk, get_cons, hk', ih]
    · simp [List.filter_cons, hk, get_cons, ih]

theorem get_set_self (m : Sessions) (k : String) (v : SessionData) :
    (m.set k v).get k = some v := by
  unfold Sessions.set
  split
  · rename_i hany
    induction m with
    | nil => simp at hany
    | cons e m ih =>
      by_cases hk : e.1 = k
      · simp [hk, get_cons]
      · have hany' : m.any (fun e => e.1 == k) = true := by
          simpa [hk] using hany
        have hb : (e.1 == k) = false := by simpa using hk
        rw [List.map_cons, get_cons, hb]
        simp only [Bool.false_eq_true, if_false, hk]
        exact ih hany'
  · rename_i hany
    induction m with
    | nil => simp [get_cons]
    | cons e m ih =>
      have hk : ¬ e.1 = k := by
        intro a; apply hany; simp [a]
      have hany' : ¬ m.any (fun e => e.1 == k) = true := by
        intro a; apply hany; simp only [List.any_cons, a, Bool.or_true]
      simp only [List.cons_append, get_cons, hk, if_false]
      exact ih hany'

theorem get_map_replace_ne (m : Sessions) (k k' : String) (v : SessionData) (h : k' ≠ k) :
    Sessions.get (m.map (fun e => if e.1 == k then (k, v) else e)) k' = m.get k' := by
  have hk' : ¬ k = k' := fun a => h a.symm
  induction m with
  | nil => rfl
  | cons e m ih =>
    rw [List.map_cons, get_cons, get_cons, ih]
    by_cases hk : e.1 = k
    · have hb : (e.1 == k) = true := by simpa using hk
      have : ¬ e.1 = k' := fun a => h (a.symm.trans hk)
      simp [hb, hk', this]
    · have hb : (e.1 == k) = false := by simpa using hk
      simp [hb]

theorem get_append_ne (m : Sessions) (k k' : String) (v : SessionData) (h : k' ≠ k) :
    Sessions.get (m ++ [(k, v)]) k' = m.get k' := by
  have hk' : ¬ k = k' := fun a => h a.symm
  induction m with
  | nil => simp [get_cons, hk', get_nil]
  | cons e m ih => rw [List.cons_append, get_cons, get_cons, ih]

theorem get_set_ne (m : Sessions) (k k' : String) (v : SessionData) (h : k' ≠ k) :
    (m.set k v).get k' = m.get k' := by
  unfold Sessions.set
  split
  · exact get_map_replace_ne m k k' v h
  · exact get_append_ne m k k' v h

theorem keys_set (m : Sessions) (k : String) (v : SessionData) :
    (m.set k v).keys = if k ∈ m.keys then m.keys else m.keys ++ [k] := by
  unfold Sessions.set Sessions.keys
  by_cases hany : m.any (fun e => e.1 == k) = true
  · have hmem : k ∈ m.map Prod.fst := by
      simp only [List.any_eq_true, beq_iff_eq] at hany
      obtain ⟨e, he, rfl⟩ := hany
      exact List.mem_map_of_mem _ he
    rw [if_pos hany, if_pos hmem, List.map_map]
    apply List.map_congr_left
    intro e _
    by_cases hk : e.1 = k <;> simp [hk]
  · have hmem : k ∉ m.map Prod.fst := by
      intro hmem
      apply hany
      simp only [List.mem_map] at hmem
      obtain ⟨e, he, rfl⟩ := hmem
      simp only [List.any_eq_true, beq_iff_eq]
      exact ⟨e, he, rfl⟩
    rw [if_neg hany, if_neg hmem]
    simp


theorem get_some_mem (m : Sessions) (k : String) (d : SessionData) (h : m.get k = some d) :
    (k, d) ∈ m := by
  induction m with
  | nil => simp [get_nil] at h
  | cons e m ih =>
    rw [get_cons] at h
    by_cases hk : e.1 = k
    · simp only [hk, if_true, Option.some.injEq] at h
      have : e = (k, d) := Prod.ext hk h
      simp [this]
    · simp only [hk, if_false] at h
      exact List.mem_cons_of_mem _ (ih h)

theorem get_filter_nodup (m : Sessions) (p : String × SessionData → Bool) (k : String)
    (hnd : m.keys.Nodup) :
    Sessions.get (m.filter p) k = (m.get k).bind (fun d => if p (k, d) then some d else none) := by
  induction m with
  | nil => rfl
  | cons e m ih =>
    have hnd' : (Sessions.keys m).Nodup := (List.nodup_cons.mp hnd).2
    have hnot : e.1 ∉ Sessions.keys m := (List.nodup_cons.mp hnd).1
    by_cases hk : e.1 = k
    · have he : e = (k, e.2) := Prod.ext hk rfl
      have hnone : Sessions.get m k = none := by
        rw [get_eq_none_iff]; rw [← hk]; exact hnot
      rw [get_cons, if_pos hk, Option.some_bind, ← he]
      by_cases hp : p e = true
      · rw [List.filter_cons_of_pos hp, get_cons, if_pos hk, if_pos hp]
      · rw [List.filter_cons_of_neg hp, if_neg hp]
        exact get_filter_of_none m p k hnone
    · rw [get_cons, if_neg hk, ← ih hnd']
      by_cases hp : p e = true
      · rw [List.filter_cons_of_pos hp, get_cons, if_neg hk]
      · rw [List.filter_cons_of_neg hp]

theorem keys_filter_sublist (m : Sessions) (p : String × SessionData → Bool) :
    List.Sublist (Sessions.keys (m.filter p)) m.keys :=
  List.Sublist.map Prod.fst (List.filter_sublist m)

theorem wellFormed_filter (m : Sessions) (p : String × SessionData → Bool)
    (h : WellFormed m) : WellFormed (m.filter p) :=
  ⟨List.Nodup.sublist (keys_filter_sublist m p) h.1,
   fun a => h.2 ((keys_filter_sublist m p).subset a)⟩

theorem wellFormed_set (m : Sessions) (k : String) (v : SessionData)
    (h : WellFormed m) (hk : k ≠ "") : WellFormed (m.set k v) := by
  unfold WellFormed
  rw [keys_set]
  split
  · exact h
  · rename_i hmem
    refine ⟨?_, ?_⟩
    · rw [List.nodup_append]
      refine ⟨h.1, List.nodup_singleton k, ?_⟩
      intro a ha hb
      rw [List.mem_singleton] at hb
      exact hmem (hb ▸ ha)
    · intro a
      rcases List.mem_append.mp a with a | a
      · exact h.2 a
      · rw [List.mem_singleton] at a
        exact hk a.symm

theorem truthy_some (s : String) : truthy (some s) = true ↔ s ≠ "" := by
  simp [truthy]

theorem deleteByToken_cases (m : Sessions) (t : Option String) :
    deleteByToken m t = m ∨ ∃ k, deleteByToken m t = m.delete k := by
  unfold deleteByToken
  cases findByToken m t with
  | none => exact Or.inl rfl
  | some k => exact Or.inr ⟨k, rfl⟩

theorem logout_cases (m : Sessions) (h : Option String) (err : Bool) :
    (logout m h err).2 = m ∨ ∃ k, (logout m h err).2 = m.delete k := by
  unfold logout
  simp only
  split
  · cases h with
    | none => exact Or.inl rfl
    | some a => exact deleteByToken_cases m _
  · exact Or.inl rfl

theorem sessionStatus_cases (m : Sessions) (session : Option String) (now : Int) :
    (sessionStatus m session now).2 = m ∨
      ∃ k, (sessionStatus m session now).2 = m.delete k := by
  unfold sessionStatus
  split
  · cases session with
    | none => exact Or.inl rfl
    | some k =>
      simp only
      cases m.get k with
      | none => exact Or.inl rfl
      | some d =>
        simp only
        split
        · exact Or.inr ⟨k, rfl⟩
        · exact Or.inl rfl
  · exact Or.inl rfl

theorem authCallback_cases (m : Sessions) (auth : Option User) (ctx state : Option String)
    (r1 r2 : String) (tokenTime now : Int) :
    (authCallback m auth ctx state r1 r2 tokenTime now).sessions = m ∨
      ∃ u k, auth = some u ∧ callbackSessionId ctx state = some k ∧ k ≠ "" ∧
        (authCallback m auth ctx state r1 r2 tokenTime now).sessions =
          m.set k { authenticated := true, token := generateToken r1 r2 tokenTime,
                    userInfo := { id := u.id, displayName := u.displayName, name := u.name,
                                  email := u.email, picture := u.picture },
                    timestamp := now } := by
  unfold authCallback
  cases auth with
  | none => exact Or.inl rfl
  | some u =>
    simp only
    cases hid : callbackSessionId ctx state with
    | none => simp [truthy]
    | some k =>
      by_cases hk : k = ""
      · simp [truthy, hk]
      · right
        refine ⟨u, k, rfl, rfl, hk, ?_⟩
        simp [truthy, hk]

theorem wellFormed_step (m : Sessions) (e : BackendEvent) (h : WellFormed m) :
    WellFormed (backendStep m e) := by
  cases e with
  | callback auth ctx state r1 r2 tokenTime now =>
    rcases authCallback_cases m auth ctx state r1 r2 tokenTime now with hc | ⟨u, k, _, _, hk, hc⟩
    · simp only [backendStep, hc]; exact h
    · simp only [backendStep, hc]; exact wellFormed_set m k _ h hk
  | status session now =>
    rcases sessionStatus_cases m session now with hc | ⟨k, hc⟩
    · simp only [backendStep, hc]; exact h
    · simp only [backendStep, hc]; exact wellFormed_filter m _ h
  | logout authHeader err =>
    rcases logout_cases m authHeader err with hc | ⟨k, hc⟩
    · simp only [backendStep, hc]; exact h
    · simp only [backendStep, hc]; exact wellFormed_filter m _ h
  | sweep now => exact wellFormed_filter m _ h

theorem wellFormed_run (events : List BackendEvent) (m : Sessions) (h : WellFormed m) :
    WellFormed (backendRun m events) := by
  induction events generalizing m with
  | nil => exact h
  | cons e es ih => exact ih _ (wellFormed_step m e h)

theorem wellFormed_of_reachable (m : Sessions) (h : Reachable m) : WellFormed m := by
  obtain ⟨events, rfl⟩ := h
  exact wellFormed_run events [] ⟨List.nodup_nil, by simp [Sessions.keys]⟩

theorem stored_ne_empty (m : Sessions) (h : WellFormed m) (k : String) (d : SessionData)
    (hget : m.get k = some d) : k ≠ "" := by
  intro hk
  apply h.2
  rw [← hk]
  simp only [Sessions.keys, List.mem_map]
  exact ⟨(k, d), get_some_mem m k d hget, rfl⟩


/-! ## Tokens -/

theorem toDigits36_ne_nil_of_acc (fuel n : Nat) (acc : List Char) (h : acc ≠ []) :
    toDigits36 fuel n acc ≠ [] := by
  induction fuel generalizing n acc with
  | zero => exact h
  | succ f ih =>
    unfold toDigits36
    split
    · exact List.cons_ne_nil _ _
    · exact ih _ _ (List.cons_ne_nil _ _)

theorem toDigits36_succ_ne_nil (fuel n : Nat) (acc : List Char) :
    toDigits36 (fuel + 1) n acc ≠ [] := by
  unfold toDigits36
  split
  · exact List.cons_ne_nil _ _
  · exact toDigits36_ne_nil_of_acc _ _ _ (List.cons_ne_nil _ _)

theorem toString36_data_ne_nil (n : Int) : (toString36 n).data ≠ [] := by
  unfold toString36
  split
  · exact List.cons_ne_nil _ _
  · exact toDigits36_succ_ne_nil _ _ _

theorem generateToken_ne_empty (r1 r2 : String) (now : Int) :
    generateToken r1 r2 now ≠ "" := by
  intro h
  have hd := congrArg String.data h
  simp only [generateToken, String.data_append] at hd
  have h36 := toString36_data_ne_nil now
  have : (toString36 now).data = [] := by
    have h1 := List.append_eq_nil.mp hd
    exact (List.append_eq_nil.mp h1.1).2
  exact h36 this

/-! ## Status lookups -/

theorem sessionStatus_of_none (m : Sessions) (S : String) (now : Int) (hS : S ≠ "")
    (h : m.get S = none) : sessionStatus m (some S) now = (notAuthenticated, m) := by
  simp [sessionStatus, truthy, hS, h]

theorem sessionStatus_of_expired (m : Sessions) (S : String) (now : Int) (d : SessionData)
    (hS : S ≠ "") (h : m.get S = some d) (hexp : now - d.timestamp > SESSION_TTL) :
    sessionStatus m (some S) now = (sessionExpired, m.delete S) := by
  simp [sessionStatus, truthy, hS, h, hexp]

theorem sessionStatus_of_live (m : Sessions) (S : String) (now : Int) (d : SessionData)
    (hS : S ≠ "") (h : m.get S = some d) (hlive : ¬ now - d.timestamp > SESSION_TTL) :
    sessionStatus m (some S) now =
      ({ status := 200, authenticated := some d.authenticated, token := some d.token,
         userInfo := some d.userInfo, error := none }, m) := by
  simp only [sessionStatus, truthy, h]
  simp [hS, hlive]

theorem get_none_step (m : Sessions) (S : String) (e : BackendEvent)
    (hne : completesFor S e = false) (h : m.get S = none) :
    (backendStep m e).get S = none := by
  cases e with
  | callback auth ctx state r1 r2 tokenTime now =>
    rcases authCallback_cases m auth ctx state r1 r2 tokenTime now with hc | ⟨u, k, hu, hid, hk, hc⟩
    · simp only [backendStep, hc]; exact h
    · simp only [backendStep, hc]
      have hSk : S ≠ k := by
        intro a
        subst a
        simp [completesFor, hu, hid, truthy, hk] at hne
      rw [get_set_ne m k S _ hSk]
      exact h
  | status session now =>
    rcases sessionStatus_cases m session now with hc | ⟨k, hc⟩
    · simp only [backendStep, hc]; exact h
    · simp only [backendStep, hc]; exact get_filter_of_none m _ S h
  | logout authHeader err =>
    rcases logout_cases m authHeader err with hc | ⟨k, hc⟩
    · simp only [backendStep, hc]; exact h
    · simp only [backendStep, hc]; exact get_filter_of_none m _ S h
  | sweep now => exact get_filter_of_none m _ S h

theorem get_none_run (events : List BackendEvent) (m : Sessions) (S : String)
    (hne : ∀ e ∈ events, completesFor S e = false) (h : m.get S = none) :
    (backendRun m events).get S = none := by
  induction events generalizing m with
  | nil => exact h
  | cons e es ih =>
    exact ih (backendStep m e) (fun x hx => hne x (List.mem_cons_of_mem _ hx))
      (get_none_step m S e (hne e (List.mem_cons_self _ _)) h)

/-- C1: when `S` is stored in a map the server can hold and its session is older
than 24 h (86,400,000 ms) at `now`, `GET /session-status?session=S` answers
`{authenticated:false, error:'Session expired'}`, removes the entry of `S` and
leaves the entry of every other id as it was; after that, whatever operations
follow other than a callback that completes for `S`, every lookup for `S` answers
`{authenticated:false}` with no token. -/
theorem expired_lookup_evicts (sessions : Sessions) (hreach : Reachable sessions)
    (S : String) (now : Int) (d : SessionData)
    (hstored : sessions.get S = some d) (hexpired : now - d.timestamp > 86400000) :
    (sessionStatus sessions (some S) now).1 = sessionExpired ∧
    (sessionStatus sessions (some S) now).2.get S = none ∧
    (∀ k, k ≠ S → (sessionStatus sessions (some S) now).2.get k = sessions.get k) ∧
    (∀ (events : List BackendEvent) (t : Int),
      (∀ e ∈ events, completesFor S e = false) →
      (sessionStatus (backendRun (sessionStatus sessions (some S) now).2 events)
          (some S) t).1 = notAuthenticated ∧
      (sessionStatus (backendRun (sessionStatus sessions (some S) now).2 events)
          (some S) t).1.token = none) := by
  have hS : S ≠ "" := stored_ne_empty sessions (wellFormed_of_reachable sessions hreach) S d hstored
  have hst := sessionStatus_of_expired sessions S now d hS hstored hexpired
  rw [hst]
  refine ⟨rfl, get_delete_self sessions S, fun k hk => get_delete_ne sessions S k hk, ?_⟩
  intro events t hne
  have hnone := get_none_run events (sessions.delete S) S hne (get_delete_self sessions S)
  rw [sessionStatus_of_none _ S t hS hnone]
  exact ⟨rfl, rfl⟩

/-- C10: when `S` is stored and its session is at most 24 h old at `now`,
`GET /session-status?session=S` leaves the map as it is, and a second lookup at
the same time returns the same response. -/
theorem live_lookup_keeps_store (sessions : Sessions) (S : String) (now : Int)
    (d : SessionData) (hstored : sessions.get S = some d)
    (hlive : now - d.timestamp ≤ 86400000) :
    (sessionStatus sessions (some S) now).2 = sessions ∧
    (sessionStatus (sessionStatus sessions (some S) now).2 (some S) now).1 =
      (sessionStatus sessions (some S) now).1 := by
  have h2 : (sessionStatus sessions (some S) now).2 = sessions := by
    by_cases hS : S = ""
    · simp [sessionStatus, truthy, hS]
    · have hl : ¬ now - d.timestamp > SESSION_TTL := by
        simp only [SESSION_TTL]; omega
      rw [sessionStatus_of_live sessions S now d hS hstored hl]
  exact ⟨h2, by rw [h2]⟩


theorem expired_lookup_evicts_witness :
    (sessionStatus exampleSessions (some "abc123") 90000000).1 = sessionExpired ∧
    (sessionStatus exampleSessions (some "abc123") 90000000).2.get "abc123" = none :=
  have h := expired_lookup_evicts exampleSessions ⟨[exampleCallback], rfl⟩ "abc123" 90000000
    exampleSession (by decide) (by decide)
  ⟨h.1, h.2.1⟩

theorem live_lookup_keeps_store_witness :
    (sessionStatus exampleSessions (some "abc123") 5000).2 = exampleSessions :=
  (live_lookup_keeps_store exampleSessions "abc123" 5000 exampleSession
    (by decide) (by decide)).1

/-! ## Callback completion -/

theorem authCallback_of_id (m : Sessions) (user : User) (ctx state : Option String)
    (r1 r2 : String) (tokenTime now : Int) (S : String) (hS : S ≠ "")
    (hid : callbackSessionId ctx state = some S) :
    authCallback m (some user) ctx state r1 r2 tokenTime now =
      { response := .successPage, issued := some (generateToken r1 r2 tokenTime),
        sessions := m.set S
          { authenticated := true, token := generateToken r1 r2 tokenTime,
            userInfo := { id := user.id, displayName := user.displayName, name := user.name,
                          email := user.email, picture := user.picture },
            timestamp := now } } := by
  simp [authCallback, hid, truthy, hS]

theorem authCallback_of_no_id (m : Sessions) (user : User) (ctx state : Option String)
    (r1 r2 : String) (tokenTime now : Int) (hid : truthy (callbackSessionId ctx state) = false) :
    authCallback m (some user) ctx state r1 r2 tokenTime now =
      { response := .redirectFailure, issued := none, sessions := m } := by
  simp [authCallback, hid]

/-- C2: after the callback route completes for a non-empty id `S` at time `t0`
for an authenticated `user`, a `GET /session-status?session=S` at any time `t`
with `t - t0 ≤ 24 h` answers `authenticated: true` with exactly the token the
callback issued, which is not the empty string, and the profile of `user`. -/
theorem callback_then_lookup (sessions : Sessions) (S : String) (hS : S ≠ "")
    (user : User) (ctx state : Option String) (r1 r2 : String) (tokenTime t0 t : Int)
    (hid : callbackSessionId ctx state = some S) (ht : t - t0 ≤ 86400000) :
    ∃ token : String,
      (authCallback sessions (some user) ctx state r1 r2 tokenTime t0).response = .successPage ∧
      (authCallback sessions (some user) ctx state r1 r2 tokenTime t0).issued = some token ∧
      token ≠ "" ∧
      (sessionStatus (authCallback sessions (some user) ctx state r1 r2 tokenTime t0).sessions
          (some S) t).1 =
        { status := 200, authenticated := some true, token := some token,
          userInfo := some { id := user.id, displayName := user.displayName,
                             name := user.name, email := user.email,
                             picture := user.picture },
          error := none } := by
  refine ⟨generateToken r1 r2 tokenTime, ?_, ?_, generateToken_ne_empty r1 r2 tokenTime, ?_⟩
  · rw [authCallback_of_id sessions user ctx state r1 r2 tokenTime t0 S hS hid]
  · rw [authCallback_of_id sessions user ctx state r1 r2 tokenTime t0 S hS hid]
  · rw [authCallback_of_id sessions user ctx state r1 r2 tokenTime t0 S hS hid]
    have hl : ¬ t - t0 > SESSION_TTL := by
      simp only [SESSION_TTL]; omega
    rw [sessionStatus_of_live _ S t _ hS (get_set_self sessions S _) hl]

theorem callback_then_lookup_witness :
    ∃ token : String,
      (authCallback [] (some exampleUser) none (some "abc123") "0.4fzyo82mvyr" "0.k3x9q1"
          1000 1000).response = .successPage ∧
      (authCallback [] (some exampleUser) none (some "abc123") "0.4fzyo82mvyr" "0.k3x9q1"
          1000 1000).issued = some token ∧
      token ≠ "" ∧
      (sessionStatus (authCallback [] (some exampleUser) none (some "abc123") "0.4fzyo82mvyr"
          "0.k3x9q1" 1000 1000).sessions (some "abc123") 4000).1 =
        { status := 200, authenticated := some true, token := some token,
          userInfo := some { id := exampleUser.id, displayName := exampleUser.displayName,
                             name := exampleUser.name, email := exampleUser.email,
                             picture := exampleUser.picture },
          error := none } :=
  callback_then_lookup [] "abc123" (by decide) exampleUser none (some "abc123")
    "0.4fzyo82mvyr" "0.k3x9q1" 1000 1000 4000 (by decide) (by decide)

/-- C9: a completed callback stores its result under
`req.session.pluginSessionId` whenever the initiation context holds an id (the
initiation route only ever records a non-empty one), and otherwise under the
`state` query parameter; when neither yields an id (absent, or empty) the
handler redirects to the failure page, issues no token and leaves the map as it
is. -/
theorem callback_session_id (sessions : Sessions) (user : User) (ctx state : Option String)
    (r1 r2 : String) (tokenTime now : Int) :
    (∀ q : Option String, authGoogle q ≠ some "") ∧
    (∀ c : String, ctx = some c → c ≠ "" →
      (authCallback sessions (some user) ctx state r1 r2 tokenTime now).response = .successPage ∧
      (authCallback sessions (some user) ctx state r1 r2 tokenTime now).sessions =
        sessions.set c
          { authenticated := true, token := generateToken r1 r2 tokenTime,
            userInfo := { id := user.id, displayName := user.displayName, name := user.name,
                          email := user.email, picture := user.picture },
            timestamp := now }) ∧
    (∀ s : String, truthy ctx = false → state = some s → s ≠ "" →
      (authCallback sessions (some user) ctx state r1 r2 tokenTime now).response = .successPage ∧
      (authCallback sessions (some user) ctx state r1 r2 tokenTime now).sessions =
        sessions.set s
          { authenticated := true, token := generateToken r1 r2 tokenTime,
            userInfo := { id := user.id, displayName := user.displayName, name := user.name,
                          email := user.email, picture := user.picture },
            timestamp := now }) ∧
    (truthy ctx = false → truthy state = false →
      authCallback sessions (some user) ctx state r1 r2 tokenTime now =
        { response := .redirectFailure, issued := none, sessions := sessions }) := by
  refine ⟨?_, ?_, ?_, ?_⟩
  · intro q
    unfold authGoogle
    split
    · rename_i hq
      intro a
      rw [a] at hq
      simp [truthy] at hq
    · simp
  · intro c hc hne
    have hid : callbackSessionId ctx state = some c := by
      simp [callbackSessionId, jsOr, hc, truthy, hne]
    rw [authCallback_of_id sessions user ctx state r1 r2 tokenTime now c hne hid]
    exact ⟨rfl, rfl⟩
  · intro s hctx hs hne
    have hid : callbackSessionId ctx state = some s := by
      simp [callbackSessionId, jsOr, hctx, hs]
    rw [authCallback_of_id sessions user ctx state r1 r2 tokenTime now s hne hid]
    exact ⟨rfl, rfl⟩
  · intro hctx hstate
    apply authCallback_of_no_id
    simp [callbackSessionId, jsOr, hctx, hstate]

theorem callback_session_id_witness :
    (authCallback exampleSessions (some exampleUser) (some "ctx1") (some "st2") "0.9d2k"
        "0.77aq" 2000 2000).sessions.keys = ["abc123", "ctx1"] ∧
    (authCallback exampleSessions (some exampleUser) none (some "st2") "0.9d2k"
        "0.77aq" 2000 2000).sessions.keys = ["abc123", "st2"] ∧
    authCallback exampleSessions (some exampleUser) none none "0.9d2k" "0.77aq" 2000 2000 =
      { response := .redirectFailure, issued := none, sessions := exampleSessions } :=
  ⟨by
    rw [((callback_session_id exampleSessions exampleUser (some "ctx1") (some "st2") "0.9d2k"
      "0.77aq" 2000 2000).2.1 "ctx1" rfl (by decide)).2]
    decide,
   by
    rw [((callback_session_id exampleSessions exampleUser none (some "st2") "0.9d2k"
      "0.77aq" 2000 2000).2.2.1 "st2" rfl rfl (by decide)).2]
    decide,
   (callback_session_id exampleSessions exampleUser none none "0.9d2k"
      "0.77aq" 2000 2000).2.2.2 rfl rfl⟩


/-! ## Logout: delete by token -/

theorem get_of_mem_nodup (m : Sessions) (k : String) (d : SessionData)
    (hnd : m.keys.Nodup) (hmem : (k, d) ∈ m) : m.get k = some d := by
  induction m with
  | nil => simp at hmem
  | cons e m ih =>
    have hnd' : (Sessions.keys m).Nodup := (List.nodup_cons.mp hnd).2
    have hnot : e.1 ∉ Sessions.keys m := (List.nodup_cons.mp hnd).1
    rw [get_cons]
    rcases List.mem_cons.mp hmem with he | he
    · rw [← he]; simp
    · have hk : ¬ e.1 = k := by
        intro a
        apply hnot
        rw [a]
        simp only [Sessions.keys, List.mem_map]
        exact ⟨(k, d), he, rfl⟩
      rw [if_neg hk]
      exact ih hnd' he

theorem findByToken_some (m : Sessions) (t : Option String) (k : String)
    (h : findByToken m t = some k) :
    ∃ (pre post : Sessions) (d : SessionData), m = pre ++ (k, d) :: post ∧
      some d.token = t ∧ ∀ x ∈ pre, some x.2.token ≠ t := by
  unfold findByToken at h
  cases hf : m.find? (fun e => some e.2.token == t) with
  | none => rw [hf] at h; simp at h
  | some e =>
    rw [hf] at h
    simp only [Option.map_some', Option.some.injEq] at h
    obtain ⟨hp, pre, post, hm, hpre⟩ := List.find?_eq_some.mp hf
    refine ⟨pre, post, e.2, ?_, ?_, ?_⟩
    · rw [hm, ← h]
    · simpa using hp
    · intro x hx
      simpa using hpre x hx

theorem findByToken_none (m : Sessions) (t : Option String) (h : findByToken m t = none) :
    ∀ x ∈ m, some x.2.token ≠ t := by
  unfold findByToken at h
  cases hf : m.find? (fun e => some e.2.token == t) with
  | some e => rw [hf] at h; simp at h
  | none =>
    intro x hx
    simpa using (List.find?_eq_none.mp hf) x hx

theorem delete_split (pre post : Sessions) (k : String) (d : SessionData)
    (hnd : Sessions.keys (pre ++ (k, d) :: post) |>.Nodup) :
    Sessions.delete (pre ++ (k, d) :: post) k = pre ++ post := by
  have hkeys : Sessions.keys (pre ++ (k, d) :: post) =
      Sessions.keys pre ++ k :: Sessions.keys post := by
    simp [Sessions.keys]
  rw [hkeys] at hnd
  have hparts := List.nodup_append.mp hnd
  have hk_post : k ∉ Sessions.keys post := (List.nodup_cons.mp hparts.2.1).1
  have hk_pre : k ∉ Sessions.keys pre := fun a => hparts.2.2 a (List.mem_cons_self _ _)
  have hpre : pre.filter (fun e => e.1 != k) = pre := by
    rw [List.filter_eq_self]
    intro a ha
    have : a.1 ≠ k := by
      intro e
      apply hk_pre
      rw [← e]
      exact List.mem_map_of_mem _ ha
    simpa using this
  have hpost : post.filter (fun e => e.1 != k) = post := by
    rw [List.filter_eq_self]
    intro a ha
    have : a.1 ≠ k := by
      intro e
      apply hk_post
      rw [← e]
      exact List.mem_map_of_mem _ ha
    simpa using this
  unfold Sessions.delete
  rw [List.filter_append, List.filter_cons, hpre, hpost]
  simp

/-- C3 (counterexample): in a map the server can reach, two sessions carry the
same token; after the delete-by-token step for that token the second one is
still stored with it. -/
theorem deleteByToken_leaves_duplicate :
    Reachable duplicateTokenSessions ∧
    (logout duplicateTokenSessions (some "Bearer 4fzyo82mvyrrsk3x9q1") false).2 =
      deleteByToken duplicateTokenSessions (some exampleSession.token) ∧
    ¬ (∀ (k : String) (d : SessionData),
        (deleteByToken duplicateTokenSessions (some exampleSession.token)).get k = some d →
        d.token ≠ exampleSession.token) := by
  refine ⟨⟨_, rfl⟩, by decide, ?_⟩
  intro h
  exact h "xyz789" exampleSession (by decide) rfl

/-- C3 (amended): the delete-by-token step removes the first entry, in
insertion order, whose token equals `t`, and nothing else.  Every session whose
token differs from `t` is still stored unchanged; when at most one stored
session has token `t`, none has it afterwards; when none has token `t` the map
is left as it is.  The step is a total function: it raises no error. -/
theorem deleteByToken_removes_first (sessions : Sessions) (hkeys : sessions.keys.Nodup)
    (t : String) :
    ((∀ k d, sessions.get k = some d → d.token ≠ t) →
      deleteByToken sessions (some t) = sessions) ∧
    ((∃ k d, sessions.get k = some d ∧ d.token = t) →
      ∃ (pre post : Sessions) (k : String) (d : SessionData),
        sessions = pre ++ (k, d) :: post ∧ d.token = t ∧ (∀ x ∈ pre, x.2.token ≠ t) ∧
        deleteByToken sessions (some t) = pre ++ post) ∧
    (∀ k d, sessions.get k = some d → d.token ≠ t →
      (deleteByToken sessions (some t)).get k = some d) ∧
    ((∀ k k' d d', sessions.get k = some d → sessions.get k' = some d' →
        d.token = t → d'.token = t → k = k') →
      ∀ k d, (deleteByToken sessions (some t)).get k = some d → d.token ≠ t) := by
  cases hf : findByToken sessions (some t) with
  | none =>
    have hno := findByToken_none sessions (some t) hf
    have hsame : deleteByToken sessions (some t) = sessions := by
      simp [deleteByToken, hf]
    refine ⟨fun _ => hsame, ?_, ?_, ?_⟩
    · rintro ⟨k, d, hget, htok⟩
      exact absurd (congrArg some htok) (hno (k, d) (get_some_mem sessions k d hget))
    · intro k d hget _
      rw [hsame]; exact hget
    · intro _ k d hget htok
      rw [hsame] at hget
      exact absurd (congrArg some htok) (hno (k, d) (get_some_mem sessions k d hget))
  | some id =>
    obtain ⟨pre, post, d0, hm, htok0, hpre⟩ := findByToken_some sessions (some t) id hf
    have htok0' : d0.token = t := Option.some.inj htok0
    have hdel : deleteByToken sessions (some t) = sessions.delete id := by
      simp [deleteByToken, hf]
    have hget0 : sessions.get id = some d0 :=
      get_of_mem_nodup sessions id d0 hkeys (by rw [hm]; simp)
    refine ⟨?_, ?_, ?_, ?_⟩
    · intro hnone
      exact absurd htok0' (hnone id d0 hget0)
    · intro _
      refine ⟨pre, post, id, d0, hm, htok0', ?_, ?_⟩
      · intro x hx a
        exact hpre x hx (congrArg some a)
      · rw [hdel]
        have hnd : (Sessions.keys (pre ++ (id, d0) :: post)).Nodup := by
          rw [← hm]; exact hkeys
        rw [hm]
        exact delete_split pre post id d0 hnd
    · intro k d hget htok
      have hk : k ≠ id := by
        intro a
        rw [a, hget0] at hget
        exact htok ((Option.some.inj hget) ▸ htok0')
      rw [hdel, get_delete_ne sessions id k hk]
      exact hget
    · intro huniq k d hget htok
      have hk : k ≠ id := by
        intro a
        rw [hdel, a, get_delete_self] at hget
        exact Option.noConfusion hget
      rw [hdel, get_delete_ne sessions id k hk] at hget
      exact hk (huniq k id d d0 hget hget0 htok htok0')

theorem deleteByToken_removes_first_witness :
    (deleteByToken exampleSessions (some "nobody")).get "abc123" = some exampleSession ∧
    ∃ (pre post : Sessions) (k : String) (d : SessionData),
      exampleSessions = pre ++ (k, d) :: post ∧ d.token = exampleSession.token ∧
      (∀ x ∈ pre, x.2.token ≠ exampleSession.token) ∧
      deleteByToken exampleSessions (some exampleSession.token) = pre ++ post :=
  ⟨(deleteByToken_removes_first exampleSessions (by decide) "nobody").2.2.1
      "abc123" exampleSession (by decide) (by decide),
   (deleteByToken_removes_first exampleSessions (by decide) exampleSession.token).2.1
      ⟨"abc123", exampleSession, by decide, rfl⟩⟩


/-! ## Stored sessions are not changed in place, except by a repeated callback -/

theorem get_delete_some (m : Sessions) (k0 k : String) (d' : SessionData)
    (h : (m.delete k0).get k = some d') : m.get k = some d' := by
  by_cases hk : k = k0
  · rw [hk, get_delete_self] at h
    exact Option.noConfusion h
  · rw [get_delete_ne m k0 k hk] at h
    exact h

/-- C4 (counterexample): the server reaches a map in which `abc123` is stored;
a second callback completion for `abc123` leaves the id stored but mapped to a
different session (new token, new timestamp). -/
theorem callback_overwrites_session :
    ¬ (∀ sessions : Sessions, Reachable sessions →
        ∀ (e : BackendEvent) (k : String) (d d' : SessionData),
          sessions.get k = some d → (backendStep sessions e).get k = some d' → d = d') := by
  intro h
  have hsame := h exampleSessions ⟨[exampleCallback], rfl⟩ repeatedCallback "abc123"
    exampleSession
    { exampleSession with token := generateToken "0.9d2k" "0.77aq" 2000, timestamp := 2000 }
    (by decide) (by decide)
  exact absurd hsame (by decide)

/-- C4 (amended): for every map the server can hold and every backend operation
other than a callback completion for the id in question (status lookup, logout,
periodic sweep, callback completion for another id or one that stores nothing),
an id that is stored before the operation and still stored after it maps to the
same session as before. -/
theorem stored_session_unchanged (sessions : Sessions) (hreach : Reachable sessions)
    (e : BackendEvent) (k : String) (d d' : SessionData)
    (hother : completesFor k e = false)
    (hbefore : sessions.get k = some d) (hafter : (backendStep sessions e).get k = some d') :
    d' = d := by
  have hwf := wellFormed_of_reachable sessions hreach
  have hsame : sessions.get k = some d' → d' = d := by
    intro a
    rw [hbefore] at a
    exact (Option.some.inj a).symm
  cases e with
  | callback auth ctx state r1 r2 tokenTime now =>
    rcases authCallback_cases sessions auth ctx state r1 r2 tokenTime now with
      hc | ⟨u, k0, hu, hid, hk0, hc⟩
    · simp only [backendStep, hc] at hafter
      exact hsame hafter
    · simp only [backendStep, hc] at hafter
      have hk : k ≠ k0 := by
        intro a
        subst a
        simp [completesFor, hu, hid, truthy, hk0] at hother
      rw [get_set_ne sessions k0 k _ hk] at hafter
      exact hsame hafter
  | status session now =>
    rcases sessionStatus_cases sessions session now with hc | ⟨k0, hc⟩
    · simp only [backendStep, hc] at hafter
      exact hsame hafter
    · simp only [backendStep, hc] at hafter
      exact hsame (get_delete_some sessions k0 k d' hafter)
  | logout authHeader err =>
    rcases logout_cases sessions authHeader err with hc | ⟨k0, hc⟩
    · simp only [backendStep, hc] at hafter
      exact hsame hafter
    · simp only [backendStep, hc] at hafter
      exact hsame (get_delete_some sessions k0 k d' hafter)
  | sweep now =>
    simp only [backendStep, sweep] at hafter
    rw [get_filter_nodup sessions _ k hwf.1, hbefore, Option.some_bind] at hafter
    split at hafter
    · exact (Option.some.inj hafter).symm
    · exact Option.noConfusion hafter

theorem stored_session_unchanged_witness :
    (backendStep exampleSessions (.sweep 5000)).get "abc123" =
      some { authenticated := true, token := "4fzyo82mvyrrsk3x9q1",
             userInfo := { id := some "117", displayName := some "Ada", name := some "Ada",
                           email := some "ada@example.org", picture := none },
             timestamp := 1000 } ∧
    ({ authenticated := true, token := "4fzyo82mvyrrsk3x9q1",
       userInfo := { id := some "117", displayName := some "Ada", name := some "Ada",
                     email := some "ada@example.org", picture := none },
       timestamp := 1000 } : SessionData) = exampleSession :=
  ⟨by decide,
   stored_session_unchanged exampleSessions ⟨[exampleCallback], rfl⟩ (.sweep 5000) "abc123"
     exampleSession _ rfl (by decide) (by decide)⟩


/-! ## The poller -/

theorem clearInterval_own (s : PluginState) (hinv : PollerInv s) :
    (clearInterval s s.pollingInterval).timers = [] := by
  rcases hinv with h | ⟨h, sid, ht, hp, _⟩
  · simp [clearInterval, h]
  · simp [clearInterval, ht, hp]

theorem timers_of_inv_truthy (s : PluginState) (hinv : PollerInv s) :
    (if truthyHandle s.pollingInterval then clearInterval s s.pollingInterval else s).timers
      = [] := by
  rcases hinv with h | ⟨h, sid, ht, hp, h0⟩
  · split
    · simp [clearInterval, h]
    · exact h
  · simp [truthyHandle, hp, h0, clearInterval, ht]

theorem startPolling_timers (s : PluginState) (hinv : PollerInv s) (sid : String) (now : Int) :
    (startPolling s sid now).timers = [(s.timerCount + 1, sid)] ∧
    (startPolling s sid now).pollingInterval = some (s.timerCount + 1) ∧
    (startPolling s sid now).timerCount = s.timerCount + 1 ∧
    (startPolling s sid now).pollingStartTime = some now := by
  have h := timers_of_inv_truthy s hinv
  have hc : (if truthyHandle s.pollingInterval then clearInterval s s.pollingInterval
      else s).timerCount = s.timerCount := by
    split <;> rfl
  simp only [startPolling, h, hc, List.nil_append, and_self]

theorem tickBody_frame (s : PluginState) (sid : String) (now : Int) (env : TickEnv) :
    (tickBody s sid now env).pollingInterval = s.pollingInterval ∧
    ((tickBody s sid now env).timers = s.timers ∨
      (tickBody s sid now env).timers = (clearInterval s s.pollingInterval).timers) := by
  obtain ⟨fetch, b1, b2⟩ := env
  unfold tickBody
  split
  · exact ⟨rfl, Or.inr rfl⟩
  · cases fetch with
    | rejected => exact ⟨rfl, Or.inr rfl⟩
    | response ok body =>
      cases ok with
      | false => exact ⟨rfl, Or.inr rfl⟩
      | true =>
        cases body with
        | none => exact ⟨rfl, Or.inr rfl⟩
        | some data =>
          simp only [Bool.not_true, Bool.false_eq_true, if_false]
          split
          · cases b1 <;> cases b2 <;>
              simp [tickCatch, clearInterval, postMessage, setAsync]
          · split
            · exact ⟨rfl, Or.inr rfl⟩
            · exact ⟨rfl, Or.inl rfl⟩

theorem handleLogout_frame (s : PluginState) (env : LogoutEnv) :
    (handleLogout s env).pollingInterval = s.pollingInterval ∧
    ((handleLogout s env).timers = s.timers ∨
      (handleLogout s env).timers = (clearInterval s s.pollingInterval).timers) := by
  obtain ⟨b0, b1, b2, b3⟩ := env
  unfold handleLogout
  cases b0 <;> cases b1 <;> cases b2 <;> cases b3 <;>
    cases hts : truthyStored (getAsync s "authToken") <;>
    cases hh : truthyHandle s.pollingInterval <;>
    simp [logoutCatch, postMessage, deleteAsync, clearInterval, hh, hts]

theorem inv_of_frame (s s' : PluginState) (hinv : PollerInv s)
    (hp : s'.pollingInterval = s.pollingInterval)
    (ht : s'.timers = s.timers ∨ s'.timers = (clearInterval s s.pollingInterval).timers) :
    PollerInv s' := by
  rcases ht with ht | ht
  · rcases hinv with h | ⟨h, sid, hts, hps, h0⟩
    · exact Or.inl (ht.trans h)
    · exact Or.inr ⟨h, sid, ht.trans hts, hp.trans hps, h0⟩
  · exact Or.inl (ht.trans (clearInterval_own s hinv))

theorem inv_step (s : PluginState) (e : PluginEvent) (hinv : PollerInv s) :
    PollerInv (pluginStep s e) := by
  cases e with
  | startPolling sid now =>
    obtain ⟨ht, hp, _, _⟩ := startPolling_timers s hinv sid now
    exact Or.inr ⟨s.timerCount + 1, sid, ht, hp, Nat.succ_ne_zero _⟩
  | tick handle now env =>
    simp only [pluginStep, tick]
    split
    · exact hinv
    · rename_i t _
      obtain ⟨hp, ht⟩ := tickBody_frame s t.2 now env
      exact inv_of_frame s _ hinv hp ht
  | logout env =>
    obtain ⟨hp, ht⟩ := handleLogout_frame s env
    exact inv_of_frame s _ hinv hp ht

theorem inv_run (events : List PluginEvent) (s : PluginState) (hinv : PollerInv s) :
    PollerInv (pluginRun s events) := by
  induction events generalizing s with
  | nil => exact hinv
  | cons e es ih => exact ih _ (inv_step s e hinv)

theorem inv_of_reachable (s : PluginState) (h : PluginReachable s) : PollerInv s := by
  obtain ⟨s0, events, hfresh, rfl⟩ := h
  exact inv_run events s0 (Or.inl hfresh.2.2)

theorem alive_of_inv (s : PluginState) (hinv : PollerInv s) (handle : Nat)
    (halive : timerAlive s handle = true) :
    ∃ sid, s.timers = [(handle, sid)] ∧ s.pollingInterval = some handle := by
  rcases hinv with h | ⟨h, sid, ht, hp, _⟩
  · simp [timerAlive, h] at halive
  · simp only [timerAlive, ht, List.any_cons, List.any_nil, Bool.or_false, beq_iff_eq] at halive
    subst halive
    exact ⟨sid, ht, hp⟩

theorem tick_of_alive (s : PluginState) (handle : Nat) (sid : String) (now : Int)
    (env : TickEnv) (ht : s.timers = [(handle, sid)]) :
    tick s handle now env = tickBody s sid now env := by
  simp [tick, ht]

/-- C5: in every state the poller can be in, a tick of the live timer at a time
`now` with `now - startedAt > 300000` ms cancels the timer, posts exactly one
`loginError` carrying the timeout message, sends no request and writes nothing
to `figma.clientStorage`; nothing else changes. -/
theorem tick_after_deadline (s : PluginState) (hreach : PluginReachable s) (handle : Nat)
    (halive : timerAlive s handle = true) (startedAt now : Int)
    (hstart : s.pollingStartTime = some startedAt) (hlate : now - startedAt > 300000)
    (env : TickEnv) :
    timerAlive (tick s handle now env) handle = false ∧
    (tick s handle now env).timers = [] ∧
    (tick s handle now env).outbox =
      s.outbox ++ [.loginError (.str "Authentication timeout. Please try again.")] ∧
    (tick s handle now env).requests = s.requests ∧
    (tick s handle now env).storage = s.storage ∧
    tick s handle now env =
      { s with timers := [],
               outbox := s.outbox ++
                 [.loginError (.str "Authentication timeout. Please try again.")] } := by
  have hinv := inv_of_reachable s hreach
  obtain ⟨sid, ht, hp⟩ := alive_of_inv s hinv handle halive
  have hclear := clearInterval_own s hinv
  have hlate' : now - s.pollingStartTime.getD 0 > MAX_POLLING_TIME := by
    rw [hstart]; exact hlate
  have heq : tick s handle now env =
      { s with timers := [],
               outbox := s.outbox ++
                 [.loginError (.str "Authentication timeout. Please try again.")] } := by
    rw [tick_of_alive s handle sid now env ht]
    unfold tickBody
    rw [if_pos hlate']
    simp only [postMessage]
    rw [hclear]
    rfl
  rw [heq]
  exact ⟨rfl, rfl, rfl, rfl, rfl, rfl⟩

theorem tick_after_deadline_witness :
    (tick pollingState 1 300001 (okTick successBody)).timers = [] ∧
    (tick pollingState 1 300001 (okTick successBody)).outbox =
      [.loginError (.str "Authentication timeout. Please try again.")] ∧
    (tick pollingState 1 300001 (okTick successBody)).requests = [] :=
  have h := tick_after_deadline pollingState
    ⟨pluginInit, [.startPolling "abc123" 0], ⟨rfl, rfl, rfl⟩, rfl⟩ 1 (by decide) 0 300001
    (by decide) (by decide) (okTick successBody)
  ⟨h.2.1, h.2.2.1, h.2.2.2.1⟩


/-- C6: starting from a freshly loaded plugin, after each event of any sequence
of `startPolling`, tick and logout events at most one interval timer is live;
and after two successive `startPolling` calls exactly one timer is live, the
one scheduled by the second call, while the one scheduled by the first call has
been cancelled. -/
theorem at_most_one_timer (s0 : PluginState) (hfresh : Fresh s0)
    (events : List PluginEvent) :
    (∀ n : Nat, (pluginRun s0 (events.take n)).timers.length ≤ 1) ∧
    ∀ (sid1 sid2 : String) (t1 t2 : Int),
      ∃ h1 h2 : Nat,
        (startPolling (pluginRun s0 events) sid1 t1).pollingInterval = some h1 ∧
        (startPolling (pluginRun s0 events) sid1 t1).timers = [(h1, sid1)] ∧
        (startPolling (startPolling (pluginRun s0 events) sid1 t1) sid2 t2).pollingInterval
          = some h2 ∧
        (startPolling (startPolling (pluginRun s0 events) sid1 t1) sid2 t2).timers
          = [(h2, sid2)] ∧
        h1 ≠ h2 ∧
        timerAlive (startPolling (startPolling (pluginRun s0 events) sid1 t1) sid2 t2) h1
          = false := by
  have hinv0 : PollerInv s0 := Or.inl hfresh.2.2
  refine ⟨?_, ?_⟩
  · intro n
    rcases inv_run (events.take n) s0 hinv0 with h | ⟨h, sid, ht, _, _⟩
    · rw [h]; exact Nat.zero_le _
    · rw [ht]; exact Nat.le_refl _
  · intro sid1 sid2 t1 t2
    have hinv := inv_run events s0 hinv0
    obtain ⟨ht1, hp1, hc1, _⟩ := startPolling_timers (pluginRun s0 events) hinv sid1 t1
    have hinv1 : PollerInv (startPolling (pluginRun s0 events) sid1 t1) :=
      Or.inr ⟨_, sid1, ht1, hp1, Nat.succ_ne_zero _⟩
    obtain ⟨ht2, hp2, _, _⟩ :=
      startPolling_timers (startPolling (pluginRun s0 events) sid1 t1) hinv1 sid2 t2
    rw [hc1] at ht2 hp2
    refine ⟨_, _, hp1, ht1, hp2, ht2, ?_, ?_⟩
    · omega
    · simp [timerAlive, ht2]

theorem at_most_one_timer_witness :
    (pluginRun pluginInit
      (List.take 3 [.startPolling "abc123" 0, .tick 1 3000 (okTick emptyErrorBody),
        .startPolling "def456" 10000])).timers.length ≤ 1 :=
  (at_most_one_timer pluginInit ⟨rfl, rfl, rfl⟩
    [.startPolling "abc123" 0, .tick 1 3000 (okTick emptyErrorBody),
      .startPolling "def456" 10000]).1 3

/-- C7 (counterexample): while `abc123` is being polled (started at clock
reading 0), a tick at clock reading 3000, within the time limit, receives the
success response `{authenticated: false, error: ''}`.  It
carries an `error` field, yet the timer is still live afterwards and no
notification has been posted. -/
theorem tick_keeps_polling_on_empty_error :
    PluginReachable pollingState ∧
    timerAlive pollingState 1 = true ∧
    pollingState.pollingStartTime = some 0 ∧
    ¬ (timerAlive (tick pollingState 1 3000 (okTick emptyErrorBody)) 1 = true ↔
        claimedKeepsPolling (okTick emptyErrorBody).fetch = true) ∧
    (tick pollingState 1 3000 (okTick emptyErrorBody)).timers = pollingState.timers ∧
    (tick pollingState 1 3000 (okTick emptyErrorBody)).outbox = pollingState.outbox := by
  refine ⟨⟨pluginInit, [.startPolling "abc123" 0], ⟨rfl, rfl, rfl⟩, rfl⟩, by decide,
    by decide, by decide, by decide, by decide⟩

/-- C7 (amended): for every tick of the live timer within the time limit
(`now - startedAt ≤ 300000` ms), the timer is still live after the tick exactly
when the status request returned a success response with a readable body whose
`authenticated` field is falsy and whose `error` field is absent or falsy; in
that case no notification is posted and nothing is written to
`figma.clientStorage`; in every other case (thrown error, non-success response,
unreadable body, truthy `authenticated`, truthy `error`) the timer is cancelled
and exactly one notification is posted. -/
theorem tick_within_deadline (s : PluginState) (hreach : PluginReachable s) (handle : Nat)
    (halive : timerAlive s handle = true) (startedAt now : Int)
    (hstart : s.pollingStartTime = some startedAt) (hearly : now - startedAt ≤ 300000)
    (env : TickEnv) :
    (timerAlive (tick s handle now env) handle = true ↔ keepsPolling env.fetch = true) ∧
    (keepsPolling env.fetch = true →
      (tick s handle now env).timers = s.timers ∧
      (tick s handle now env).outbox = s.outbox ∧
      (tick s handle now env).storage = s.storage) ∧
    (keepsPolling env.fetch = false →
      (tick s handle now env).timers = [] ∧
      ∃ m : UiMessage, (tick s handle now env).outbox = s.outbox ++ [m]) := by
  have hinv := inv_of_reachable s hreach
  obtain ⟨sid, ht, hp⟩ := alive_of_inv s hinv handle halive
  have hnot : ¬ now - s.pollingStartTime.getD 0 > MAX_POLLING_TIME := by
    rw [hstart]
    simp only [MAX_POLLING_TIME, Option.getD_some]
    omega
  rw [tick_of_alive s handle sid now env ht]
  obtain ⟨fetch, b1, b2⟩ := env
  unfold tickBody
  rw [if_neg hnot]
  cases fetch with
  | rejected =>
    simp [keepsPolling, tickCatch, clearInterval, postMessage, timerAlive, ht, hp]
  | response ok body =>
    cases ok with
    | false => simp [keepsPolling, tickCatch, clearInterval, postMessage, timerAlive, ht, hp]
    | true =>
      cases body with
      | none => simp [keepsPolling, tickCatch, clearInterval, postMessage, timerAlive, ht, hp]
      | some data =>
        cases ha : truthyVal data.authenticated <;> cases he : truthyVal data.error <;>
          cases b1 <;> cases b2 <;>
          simp [keepsPolling, tickCatch, clearInterval, postMessage, setAsync, timerAlive,
            ht, hp, ha, he]

theorem tick_within_deadline_witness :
    timerAlive (tick pollingState 1 3000 (okTick successBody)) 1 = false ∧
    (tick pollingState 1 3000 (okTick successBody)).timers = [] :=
  have h := tick_within_deadline pollingState
    ⟨pluginInit, [.startPolling "abc123" 0], ⟨rfl, rfl, rfl⟩, rfl⟩ 1 (by decide) 0 3000
    (by decide) (by decide) (okTick successBody)
  ⟨by
    cases hb : timerAlive (tick pollingState 1 3000 (okTick successBody)) 1 with
    | false => rfl
    | true => exact absurd (h.1.mp hb) (by decide),
   (h.2.2 (by decide)).1⟩

/-- When every step of `handleLogout` resolves, no interval timer is live once it
has finished. -/
theorem logout_success_cancels_timer (s : PluginState) (hreach : PluginReachable s) :
    (handleLogout s { getTokenOk := true, fetchOk := true, deleteTokenOk := true,
                      deleteUserInfoOk := true }).timers = [] := by
  have hinv := inv_of_reachable s hreach
  have h0 := timers_of_inv_truthy s hinv
  unfold handleLogout
  cases hts : truthyStored (getAsync s "authToken") <;>
    cases hh : truthyHandle s.pollingInterval <;>
    simp [postMessage, deleteAsync, clearInterval, hh, hts] <;>
    simpa [hh, clearInterval] using h0

/-- C8 (the code at the failing input): a token is stored and a poll timer is
live; `handleLogout` runs and its request to `/logout` throws.  The `catch`
block posts `logoutError`, and the timer is still live once `handleLogout` has
finished.  The same happens while nothing is stored and the first
`deleteAsync` throws. -/
theorem logout_failure_keeps_timer :
    PluginReachable loggedInPolling ∧
    timerAlive loggedInPolling 2 = true ∧
    timerAlive (handleLogout loggedInPolling logoutFetchFails) 2 = true ∧
    (handleLogout loggedInPolling logoutFetchFails).timers = [(2, "def456")] ∧
    (handleLogout loggedInPolling logoutFetchFails).outbox.getLast? =
      some (.logoutError "Failed to logout. Please try again.") ∧
    (handleLogout pollingState logoutDeleteFails).timers = [(1, "abc123")] := by
  refine ⟨⟨pluginInit, _, ⟨rfl, rfl, rfl⟩, rfl⟩, by decide, by decide, by decide, by decide,
    by decide⟩

end FigmaOAuth
